import Mathlib

set_option maxRecDepth 100000

/-!
Verification of the SPI serial-flash image loader (`driver/spi_flash.c`):
descriptor resolution, logical-offset-to-device-address translation, read
command layout, the recovery erase engine, and the load orchestrator.

The C routines are embedded shallowly: machine `unsigned int` arithmetic is
`Nat` with an explicit `% 2 ^ 32` where the 32-bit wrap is observable, the
SPI bus is an environment supplying the bytes each status/ID read returns
(transactions themselves are taken as succeeding), and each routine keeps
its C name.  The external payload parsers (`kernel_size`,
`check_dt_blob_valid` / `of_get_dt_total_size`) and the configuration gates
(`CONFIG_DATAFLASH_RECOVERY`, `CONFIG_LOAD_LINUX`, `CONFIG_OF_LIBFDT`,
`CONFIG_SPI_FLASH_WINBOND`) live outside this translation unit; they are
modelled from the spec where noted.
-/

namespace SpiFlash

/-- Continuous array fast-read opcode (`CMD_READ_ARRAY_FAST`, line 20). -/
def CMD_READ_ARRAY_FAST : Nat := 0x0b

/-- JEDEC manufacturer codes (lines 24-26). -/
def MANUFACTURER_ID_ATMEL : Nat := 0x1f

def MANUFACTURER_ID_MICRON : Nat := 0x20

def MANUFACTURER_ID_WINBOND : Nat := 0xef

/-- Family codes (lines 29-34, 49). -/
def DF_FAMILY_AT26F : Nat := 0x00

def DF_FAMILY_AT45 : Nat := 0x20

def DF_FAMILY_AT26DF : Nat := 0x40

def DF_FAMILY_N25Q : Nat := 0xA0

def DF_FAMILY_M25P : Nat := 0x20

def WINBOND_W25Q128JV : Nat := 0x40

/-- AT45 density codes (lines 37-46). -/
def DENSITY_AT45DB011D : Nat := 0x0C

def DENSITY_AT45DB021D : Nat := 0x14

def DENSITY_AT45DB041D : Nat := 0x1C

def DENSITY_AT45DB081D : Nat := 0x24

def DENSITY_AT45DB161D : Nat := 0x2C

def DENSITY_AT45DB321D : Nat := 0x34

def DENSITY_AT45DB642D : Nat := 0x3C

def DENSITY_AT45DB1282D : Nat := 0x10

def DENSITY_AT45DB2562D : Nat := 0x18

def DENSITY_AT45DB5122D : Nat := 0x20

/-- AT45 status register bits (lines 55-56). -/
def STATUS_PAGE_SIZE_AT45 : Nat := 1

def STATUS_READY_AT45 : Nat := 0x80

/-- AT25 status register bits (lines 238-242). -/
def STATUS_READY_AT25 : Nat := 1

def STATUS_SWP_AT25 : Nat := 0x0c

def STATUS_SPRL_AT25 : Nat := 0x80

/-- `struct dataflash_descriptor` (lines 58-66). -/
structure dataflash_descriptor where
  family : Nat
  pages : Nat
  page_size : Nat
  page_offset : Nat
  is_power_2 : Nat
  is_spinor : Nat
deriving DecidableEq, Repr

/-- The descriptor as zeroed by `memset(df_desc, 0, sizeof(*df_desc))`
(line 1162) at the start of `spi_flash_loadimage`. -/
def zeroed_descriptor : dataflash_descriptor :=
  { family := 0, pages := 0, page_size := 0, page_offset := 0
  , is_power_2 := 0, is_spinor := 0 }

/-- Device address computed by `dataflash_read_array` (lines 118-126):
non-power-of-2 parts split the offset by `division(offset, page_size, ...)`
and compose `(page_addr << page_shift) + byte_addr` in 32-bit arithmetic;
power-of-2 parts use the offset unchanged. -/
def dataflash_address (d : dataflash_descriptor) (offset : Nat) : Nat :=
  if d.is_power_2 = 0 then
    ((offset / d.page_size) <<< d.page_offset + offset % d.page_size) % 2 ^ 32
  else offset

/-- The 5-byte command built by `dataflash_read_array` (lines 128-142):
4-byte MSB-first address when `pages > 16384`, otherwise 3-byte MSB-first
address plus a zero dummy byte. -/
def dataflash_read_array_cmd (d : dataflash_descriptor) (offset : Nat) : List Nat :=
  let address := dataflash_address d offset
  if 16384 < d.pages then
    [CMD_READ_ARRAY_FAST, address >>> 24 % 256, address >>> 16 % 256,
     address >>> 8 % 256, address % 256]
  else
    [CMD_READ_ARRAY_FAST, address >>> 16 % 256, address >>> 8 % 256,
     address % 256, 0x00]

/-- The 5-byte command built by `spinor_read_array` (lines 161-167): always a
3-byte MSB-first address; `cmd[4]` is never written in the C (it is the stack
garbage sent for the dummy cycle), modelled by the `junk` parameter. -/
def spinor_read_array_cmd (offset junk : Nat) : List Nat :=
  [CMD_READ_ARRAY_FAST, offset >>> 16 % 256, offset >>> 8 % 256,
   offset % 256, junk]

/-- `read_array` (lines 176-185): dispatch on `is_spinor`. -/
def read_array_cmd (d : dataflash_descriptor) (offset junk : Nat) : List Nat :=
  if d.is_spinor = 0 then dataflash_read_array_cmd d offset
  else spinor_read_array_cmd offset junk

/-- `w_25q128_desc_init` (lines 452-459). -/
def w_25q128_desc_init (d : dataflash_descriptor) : Int × dataflash_descriptor :=
  (0, { d with pages := 346, page_size := 256, page_offset := 0, is_spinor := 1 })

/-- `df_n25q_desc_init` (lines 461-468). -/
def df_n25q_desc_init (d : dataflash_descriptor) : Int × dataflash_descriptor :=
  (0, { d with pages := 16384, page_size := 256, page_offset := 0, is_spinor := 1 })

/-- `df_at45_desc_init` (lines 470-552): decode the AT45 status byte read
from the device into a geometry; the larger density codes (1282D, 2562D,
5122D) are commented out in the source and so fall to the failing default.
Returns the C return code together with the updated descriptor. -/
def df_at45_desc_init (status : Nat) (d : dataflash_descriptor) :
    Int × dataflash_descriptor :=
  let d := if status &&& STATUS_PAGE_SIZE_AT45 ≠ 0 then { d with is_power_2 := 1 }
           else { d with is_power_2 := 0 }
  let density := status &&& 0x3c
  if density = DENSITY_AT45DB011D then
    (0, { d with pages := 512, page_size := 264, page_offset := 9 })
  else if density = DENSITY_AT45DB021D then
    (0, { d with pages := 1024, page_size := 264, page_offset := 9 })
  else if density = DENSITY_AT45DB041D then
    (0, { d with pages := 2048, page_size := 264, page_offset := 9 })
  else if density = DENSITY_AT45DB081D then
    (0, { d with pages := 4096, page_size := 264, page_offset := 9 })
  else if density = DENSITY_AT45DB161D then
    (0, { d with pages := 4096, page_size := 528, page_offset := 10 })
  else if density = DENSITY_AT45DB321D then
    (0, { d with pages := 8192, page_size := 528, page_offset := 10 })
  else if density = DENSITY_AT45DB642D then
    (0, { d with pages := 8192, page_size := 1056, page_offset := 11 })
  else
    (-1, d)

/-- `df_at25_desc_init` (lines 554-564): fixed AT25DF321 geometry, no
status read. -/
def df_at25_desc_init (d : dataflash_descriptor) : Int × dataflash_descriptor :=
  (0, { d with is_power_2 := 1, pages := 16384, page_size := 256, page_offset := 0 })

/-- `df_desc_init` (lines 1035-1097): legacy dispatch on the vendor byte and
family code.  `st45` is the AT45 status byte the device would answer, consumed
only on the AT45 branch. -/
def df_desc_init (st45 : Nat) (vendor family : Nat) (d : dataflash_descriptor) :
    Int × dataflash_descriptor :=
  let d := { d with family := family }
  if vendor = MANUFACTURER_ID_ATMEL then
    if d.family = DF_FAMILY_AT26F ∨ d.family = DF_FAMILY_AT26DF then
      df_at25_desc_init d
    else if d.family = DF_FAMILY_AT45 then
      df_at45_desc_init st45 d
    else (-1, d)
  else if vendor = MANUFACTURER_ID_MICRON then
    if d.family = DF_FAMILY_M25P then df_n25q_desc_init d
    else if d.family = DF_FAMILY_N25Q then df_n25q_desc_init d
    else (-1, d)
  else if vendor = MANUFACTURER_ID_WINBOND then
    if d.family = WINBOND_W25Q128JV then w_25q128_desc_init d
    else (-1, d)
  else (-1, d)

/-- `struct flash_info` (lines 611-665); the capability `flags` word is not
read by any routine modelled here and is omitted. -/
structure flash_info where
  name : String
  id : List Nat
  id_len : Nat
  sector_size : Nat
  n_sectors : Nat
  page_size : Nat
deriving DecidableEq, Repr

/-- The `INFO` initializer macro (lines 575-588): three JEDEC ID bytes, two
extended ID bytes, a sixth implicit zero, `id_len` 0/3/5, and a fixed
page size of 256. -/
def INFO (name : String) (jedec_id ext_id sector_size n_sectors : Nat) :
    flash_info :=
  { name := name
  , id := [jedec_id >>> 16 % 256, jedec_id >>> 8 % 256, jedec_id % 256,
           ext_id >>> 8 % 256, ext_id % 256, 0]
  , id_len := if jedec_id = 0 then 0 else 3 + (if ext_id = 0 then 0 else 2)
  , sector_size := sector_size
  , n_sectors := n_sectors
  , page_size := 256 }

/-- The Winbond section of `spi_nor_ids` (lines 886-961), in source order,
as compiled with `CONFIG_SPI_FLASH_WINBOND` (the configuration gates live in
the board headers outside this translation unit; the spec's probe scenario
presupposes this section present).  The terminating `{ }` sentinel is the
end of the list. -/
def spi_nor_ids_winbond : List flash_info :=
  [ INFO "w25p80" 0xef2014 0x0 (64 * 1024) 16
  , INFO "w25p16" 0xef2015 0x0 (64 * 1024) 32
  , INFO "w25p32" 0xef2016 0x0 (64 * 1024) 64
  , INFO "w25x05" 0xef3010 0 (64 * 1024) 1
  , INFO "w25x40" 0xef3013 0 (64 * 1024) 8
  , INFO "w25x16" 0xef3015 0 (64 * 1024) 32
  , INFO "w25q16dw" 0xef6015 0 (64 * 1024) 32
  , INFO "w25x32" 0xef3016 0 (64 * 1024) 64
  , INFO "w25q20cl" 0xef4012 0 (64 * 1024) 4
  , INFO "w25q20bw" 0xef5012 0 (64 * 1024) 4
  , INFO "w25q20ew" 0xef6012 0 (64 * 1024) 4
  , INFO "w25q32" 0xef4016 0 (64 * 1024) 64
  , INFO "w25q32dw" 0xef6016 0 (64 * 1024) 64
  , INFO "w25q32jv" 0xef7016 0 (64 * 1024) 64
  , INFO "w25q32jwm" 0xef8016 0 (64 * 1024) 64
  , INFO "w25x64" 0xef3017 0 (64 * 1024) 128
  , INFO "w25q64dw" 0xef6017 0 (64 * 1024) 128
  , INFO "w25q64jv" 0xef7017 0 (64 * 1024) 128
  , INFO "w25q128fw" 0xef6018 0 (64 * 1024) 256
  , INFO "w25q128jv" 0xef7018 0 (64 * 1024) 256
  , INFO "w25q256fw" 0xef6019 0 (64 * 1024) 512
  , INFO "w25q256jw" 0xef7019 0 (64 * 1024) 512
  , INFO "w25q80" 0xef5014 0 (64 * 1024) 16
  , INFO "w25q80bl" 0xef4014 0 (64 * 1024) 16
  , INFO "w25q16cl" 0xef4015 0 (64 * 1024) 32
  , INFO "w25q64cv" 0xef4017 0 (64 * 1024) 128
  , INFO "w25q128" 0xef4018 0 (64 * 1024) 256
  , INFO "w25q256" 0xef4019 0 (64 * 1024) 512
  , INFO "w25m512jw" 0xef6119 0 (64 * 1024) 1024
  , INFO "w25m512jv" 0xef7119 0 (64 * 1024) 1024 ]

/-- `!memcmp(info->id, dev_id, info->id_len)` (line 1126). -/
def id_matches (info : flash_info) (dev_id : List Nat) : Bool :=
  info.id.take info.id_len = dev_id.take info.id_len

/-- `dataflash_probe_atmel` (lines 1100-1154): first-match scan of the part
table against the 5 ID bytes the device answered.  On a match the code copies
`n_sectors` into `pages`, the table page size into `page_size`, and stores
the entry pointer itself into `page_offset` (line 1129) — `info_addr` gives
that pointer's numeric value per entry.  The legacy fallback (lines
1141-1152) is commented out in the source, so a scan with no match returns 1
leaving the descriptor untouched. -/
def dataflash_probe_atmel (table : List flash_info) (dev_id : List Nat)
    (info_addr : flash_info → Nat) (d : dataflash_descriptor) :
    Int × dataflash_descriptor :=
  match table with
  | [] => (1, d)
  | info :: rest =>
    if info.id_len ≠ 0 ∧ id_matches info dev_id then
      (0, { d with pages := info.n_sectors, page_size := info.page_size,
                   page_offset := info_addr info })
    else dataflash_probe_atmel rest dev_id info_addr d

/-- The do-while status-poll loop of `dataflash_page0_erase_at25`
(lines 363-375): `st i` is the byte the i-th AT25 status read returns; the
second argument is the current value of the C `timeout` counter (1000 on
entry).  Break on the ready bit (bit 0) reading low returns 0; decrementing
`timeout` to zero without a break returns -1. -/
def at25_poll (st : Nat → Nat) : Nat → Nat → Int
  | _, 0 => -1
  | i, timeout + 1 =>
    if st i &&& STATUS_READY_AT25 = 0 then 0
    else if timeout = 0 then -1
    else at25_poll st (i + 1) timeout

/-- The do-while status-poll loop of `dataflash_page0_erase_at45`
(lines 400-412): break when the ready bit (bit 7) reads high; the final
check `!(status & STATUS_READY_AT45)` then yields 0 after a break and -1
when the counter ran out (the last read necessarily had the bit clear). -/
def at45_poll (st : Nat → Nat) : Nat → Nat → Int
  | _, 0 => -1
  | i, timeout + 1 =>
    if st i &&& STATUS_READY_AT45 ≠ 0 then 0
    else if timeout = 0 then -1
    else at45_poll st (i + 1) timeout

/-- `at25_unprotect` (lines 284-332): status reads are served from `st`
starting at index `i`; write-enable and write-status transactions read
nothing and are modelled as succeeding.  Returns the C return code and the
next unused status-read index. -/
def at25_unprotect (st : Nat → Nat) (i : Nat) : Int × Nat :=
  let status := st i
  if status &&& STATUS_SWP_AT25 = 0 then (0, i + 1)
  else
    let status2 := st (i + 1)
    if status2 &&& (STATUS_SPRL_AT25 ||| STATUS_SWP_AT25) ≠ 0 then (-1, i + 2)
    else (0, i + 2)

/-- `dataflash_page0_erase_at25` (lines 334-378): unprotect, write-enable,
4 KiB block erase of address 0, delay, then the bounded poll. -/
def dataflash_page0_erase_at25 (st : Nat → Nat) : Int :=
  let r := at25_unprotect st 0
  if r.1 ≠ 0 then r.1
  else at25_poll st r.2 1000

/-- `dataflash_page0_erase_at45` (lines 380-415): page erase of page 0,
delay, then the bounded poll. -/
def dataflash_page0_erase_at45 (st : Nat → Nat) : Int :=
  at45_poll st 0 1000

/-- Which erase routine `dataflash_recovery` invoked, for observing the
family dispatch of lines 433-437. -/
inductive ErasePath where
  | idle : ErasePath
  | at25 : ErasePath
  | at45 : ErasePath
deriving DecidableEq, Repr

/-- `dataflash_recovery` (lines 417-449): a recovery-button GPIO value of 0
means pressed; AT26F/AT26DF descriptors take the AT25 erase, all others the
AT45 erase; an unpressed button returns -1. -/
def dataflash_recovery (button_pressed : Bool) (st25 st45 : Nat → Nat)
    (d : dataflash_descriptor) : Int × ErasePath :=
  if button_pressed then
    if d.family = DF_FAMILY_AT26F ∨ d.family = DF_FAMILY_AT26DF then
      (dataflash_page0_erase_at25 st25, ErasePath.at25)
    else
      (dataflash_page0_erase_at45 st45, ErasePath.at45)
  else (-1, ErasePath.idle)

/-- Payload kind discriminator (`KERNEL_IMAGE` / `DT_BLOB` from the shared
headers outside this translation unit). -/
inductive image_flag where
  | kernel_image : image_flag
  | dt_blob : image_flag
deriving DecidableEq, Repr

/-- The external world of one load: the 5 device-ID bytes answered to
`CMD_READ_DEV_ID`, the numeric value of each table entry's address (for the
`page_offset = info` store), the recovery-button state, the AT25/AT45 status
byte streams, and the payload parsers.  `kernel_size_result`,
`dt_blob_valid` and `dt_total_size` are modelled from the spec:
`kernel_size` / `check_dt_blob_valid` / `of_get_dt_total_size` live outside
this translation unit and return a declared size, or an error (-1 for the
kernel parser, invalidity for the blob check). -/
structure SpiEnv where
  dev_id : List Nat
  info_addr : flash_info → Nat
  button_pressed : Bool
  st25 : Nat → Nat
  st45 : Nat → Nat
  kernel_size_result : Int
  dt_blob_valid : Bool
  dt_total_size : Int

/-- `update_image_length` (lines 188-211): read one page at the payload's
offset (modelled as succeeding), then delegate to the parser selected by
`flag`; a failed device-tree validation falls through to `return -1`. -/
def update_image_length (env : SpiEnv) (flag : image_flag) : Int :=
  match flag with
  | image_flag.kernel_image => env.kernel_size_result
  | image_flag.dt_blob =>
    if env.dt_blob_valid then env.dt_total_size else -1

/-- Which payload copies `spi_flash_loadimage` actually performed (the
`read_array` calls at lines 1201 and 1219). -/
structure LoadTrace where
  kernel_copied : Bool
  dt_copied : Bool
deriving DecidableEq, Repr

/-- `spi_flash_loadimage` (lines 1156-1231), with `CONFIG_DATAFLASH_RECOVERY`,
`CONFIG_LOAD_LINUX` and `CONFIG_OF_LIBFDT` enabled (the spec covers recovery
and both payloads).  Transport initialization and the payload `read_array`
calls are modelled as succeeding; the result is the C return code plus the
trace of performed copies.  Note line 1183: the load aborts with -2 exactly
when `dataflash_recovery` returned 0 (successful erase); every nonzero
recovery result — button not pressed, or a failed erase — falls through to
the normal load. -/
def spi_flash_loadimage (table : List flash_info) (env : SpiEnv) :
    Int × LoadTrace :=
  let p := dataflash_probe_atmel table env.dev_id env.info_addr zeroed_descriptor
  if p.1 ≠ 0 then (-1, ⟨false, false⟩)
  else
    let r := dataflash_recovery env.button_pressed env.st25 env.st45 p.2
    if r.1 = 0 then (-2, ⟨false, false⟩)
    else
      let length := update_image_length env image_flag.kernel_image
      if length = -1 then (-1, ⟨false, false⟩)
      else
        let of_length := update_image_length env image_flag.dt_blob
        if of_length = -1 then (-1, ⟨true, false⟩)
        else (0, ⟨true, true⟩)

/-- A load environment in which the w25q128jv part answers the ID probe, the
recovery button is pressed, and every AT25 status read reports the
sector-protection bits (SWP) still set, so the recovery erase fails inside
the unprotect sequence. -/
def recovery_fail_env : SpiEnv :=
  { dev_id := [0xef, 0x70, 0x18, 0x00, 0x00]
  , info_addr := fun _ => 0
  , button_pressed := true
  , st25 := fun _ => 0x0c
  , st45 := fun _ => 0
  , kernel_size_result := 0x1000
  , dt_blob_valid := true
  , dt_total_size := 0x2000 }

/-- The same load environment with clean AT25 status reads: unprotect is a
no-op and the first poll already sees the busy bit low, so the recovery
erase succeeds. -/
def recovery_succ_env : SpiEnv :=
  { recovery_fail_env with st25 := fun _ => 0 }

/-- A load environment with the recovery button not pressed and a kernel
payload whose header parser rejects the first page (reports -1). -/
def kernel_reject_env : SpiEnv :=
  { recovery_fail_env with button_pressed := false, kernel_size_result := -1 }

/-- Composing a page index shifted past `S` bits with a remainder below
`2 ^ S` by addition coincides with bitwise or: the two summands occupy
disjoint bit ranges. -/
theorem shiftLeft_add_eq_lor (q S r : Nat) (h : r < 2 ^ S) :
    q <<< S + r = q <<< S ||| r := by
  apply Nat.eq_of_testBit_eq
  intro i
  rw [Nat.testBit_lor, Nat.testBit_shiftLeft, Nat.shiftLeft_eq]
  rcases Nat.lt_or_ge i S with hi | hi
  · have hdec : (decide (S ≤ i)) = false := decide_eq_false (Nat.not_le.mpr hi)
    rw [hdec, Bool.false_and, Bool.false_or,
        Nat.testBit_to_div_mod, Nat.testBit_to_div_mod]
    have hexp : (2 : Nat) ^ i * (2 ^ (S - i - 1) * 2) = 2 ^ S := by
      rw [← pow_succ, ← pow_add]
      congr 1
      omega
    have h1 : q * 2 ^ S = 2 ^ i * (q * 2 ^ (S - i - 1) * 2) := by
      rw [← hexp]
      ring
    rw [h1, Nat.add_comm, Nat.add_mul_div_left _ _ (Nat.pos_pow_of_pos i (by norm_num)),
        Nat.add_mul_mod_self_right]
  · have hdec : (decide (S ≤ i)) = true := decide_eq_true hi
    rw [hdec, Bool.true_and]
    have hr : r.testBit i = false :=
      Nat.testBit_lt_two_pow (lt_of_lt_of_le h (Nat.pow_le_pow_right (by norm_num) hi))
    rw [hr, Bool.or_false, Nat.testBit_to_div_mod, Nat.testBit_to_div_mod]
    have h2 : (q * 2 ^ S + r) / 2 ^ i = q / 2 ^ (i - S) := by
      have hsplit : (2 : Nat) ^ i = 2 ^ S * 2 ^ (i - S) := by
        rw [← pow_add]
        congr 1
        omega
      rw [hsplit, ← Nat.div_div_eq_div_mul, Nat.add_comm, mul_comm,
          Nat.add_mul_div_left _ _ (Nat.pos_pow_of_pos S (by norm_num)),
          Nat.div_eq_of_lt h, Nat.zero_add]
    rw [h2]

/-- The AT25 poll loop succeeds on fuel `t + 1` exactly when one of the
status reads `i0, i0 + 1, ..., i0 + t` has the busy bit low. -/
theorem at25_poll_zero_iff (st : Nat → Nat) : ∀ t i0,
    (at25_poll st i0 (t + 1) = 0 ↔ ∃ k ≤ t, st (i0 + k) &&& STATUS_READY_AT25 = 0) := by
  intro t
  induction t with
  | zero =>
    intro i0
    constructor
    · intro h0
      by_cases h : st i0 &&& STATUS_READY_AT25 = 0
      · exact ⟨0, Nat.le_refl 0, by simpa using h⟩
      · exfalso
        simp [at25_poll, h] at h0
    · rintro ⟨k, hk, hready⟩
      have hk0 : k = 0 := Nat.le_zero.mp hk
      subst hk0
      simp only [Nat.add_zero] at hready
      simp [at25_poll, hready]
  | succ t ih =>
    intro i0
    by_cases h : st i0 &&& STATUS_READY_AT25 = 0
    · constructor
      · intro _
        exact ⟨0, Nat.zero_le _, by simpa using h⟩
      · intro _
        simp [at25_poll, h]
    · have hstep : at25_poll st i0 (t + 1 + 1) = at25_poll st (i0 + 1) (t + 1) := by
        simp [at25_poll, h]
      rw [hstep, ih (i0 + 1)]
      constructor
      · rintro ⟨k, hk, hready⟩
        refine ⟨k + 1, by omega, ?_⟩
        rwa [show i0 + (k + 1) = i0 + 1 + k by omega]
      · rintro ⟨k, hk, hready⟩
        cases k with
        | zero => exact absurd (by simpa using hready) h
        | succ k =>
          refine ⟨k, by omega, ?_⟩
          rwa [show i0 + 1 + k = i0 + (k + 1) by omega]

/-- The AT25 poll loop only ever returns 0 or -1. -/
theorem at25_poll_zero_or_neg_one (st : Nat → Nat) : ∀ t i0,
    at25_poll st i0 t = 0 ∨ at25_poll st i0 t = -1 := by
  intro t
  induction t with
  | zero =>
    intro i0
    right
    rfl
  | succ t ih =>
    intro i0
    by_cases h : st i0 &&& STATUS_READY_AT25 = 0
    · left
      simp [at25_poll, h]
    · rcases Nat.eq_zero_or_pos t with ht | ht
      · right
        simp [at25_poll, h, ht]
      · have hstep : at25_poll st i0 (t + 1) = at25_poll st (i0 + 1) t := by
          simp [at25_poll, h, Nat.pos_iff_ne_zero.mp ht]
        rw [hstep]
        exact ih (i0 + 1)

/-- The AT45 poll loop succeeds on fuel `t + 1` exactly when one of the
status reads `i0, i0 + 1, ..., i0 + t` has the ready bit high. -/
theorem at45_poll_zero_iff (st : Nat → Nat) : ∀ t i0,
    (at45_poll st i0 (t + 1) = 0 ↔ ∃ k ≤ t, st (i0 + k) &&& STATUS_READY_AT45 ≠ 0) := by
  intro t
  induction t with
  | zero =>
    intro i0
    constructor
    · intro h0
      by_cases h : st i0 &&& STATUS_READY_AT45 ≠ 0
      · exact ⟨0, Nat.le_refl 0, by simpa using h⟩
      · exfalso
        simp [at45_poll, h] at h0
    · rintro ⟨k, hk, hready⟩
      have hk0 : k = 0 := Nat.le_zero.mp hk
      subst hk0
      simp only [Nat.add_zero] at hready
      simp [at45_poll, hready]
  | succ t ih =>
    intro i0
    by_cases h : st i0 &&& STATUS_READY_AT45 ≠ 0
    · constructor
      · intro _
        exact ⟨0, Nat.zero_le _, by simpa using h⟩
      · intro _
        simp [at45_poll, h]
    · have hstep : at45_poll st i0 (t + 1 + 1) = at45_poll st (i0 + 1) (t + 1) := by
        simp [at45_poll, h]
      rw [hstep, ih (i0 + 1)]
      constructor
      · rintro ⟨k, hk, hready⟩
        refine ⟨k + 1, by omega, ?_⟩
        rwa [show i0 + (k + 1) = i0 + 1 + k by omega]
      · rintro ⟨k, hk, hready⟩
        cases k with
        | zero => exact absurd (by simpa using hready) h
        | succ k =>
          refine ⟨k, by omega, ?_⟩
          rwa [show i0 + 1 + k = i0 + (k + 1) by omega]

/-- The AT45 poll loop only ever returns 0 or -1. -/
theorem at45_poll_zero_or_neg_one (st : Nat → Nat) : ∀ t i0,
    at45_poll st i0 t = 0 ∨ at45_poll st i0 t = -1 := by
  intro t
  induction t with
  | zero =>
    intro i0
    right
    rfl
  | succ t ih =>
    intro i0
    by_cases h : st i0 &&& STATUS_READY_AT45 ≠ 0
    · left
      simp [at45_poll, h]
    · rcases Nat.eq_zero_or_pos t with ht | ht
      · right
        simp [at45_poll, h, ht]
      · have hstep : at45_poll st i0 (t + 1) = at45_poll st (i0 + 1) t := by
          simp [at45_poll, h, Nat.pos_iff_ne_zero.mp ht]
        rw [hstep]
        exact ih (i0 + 1)

/-- The table scan never writes the `family` field. -/
theorem dataflash_probe_atmel_family (table : List flash_info) (dev_id : List Nat)
    (ia : flash_info → Nat) (d : dataflash_descriptor) :
    ((dataflash_probe_atmel table dev_id ia d).2).family = d.family := by
  induction table with
  | nil => rfl
  | cons info rest ih =>
    by_cases hm : info.id_len ≠ 0 ∧ id_matches info dev_id
    · simp [dataflash_probe_atmel, hm]
    · simpa [dataflash_probe_atmel, hm] using ih

/-- A scan in which no entry matches returns 1 and leaves the descriptor
untouched. -/
theorem dataflash_probe_atmel_no_match (table : List flash_info) (dev_id : List Nat)
    (ia : flash_info → Nat) (d : dataflash_descriptor)
    (h : ∀ info ∈ table, info.id_len = 0 ∨ ¬ id_matches info dev_id) :
    dataflash_probe_atmel table dev_id ia d = (1, d) := by
  induction table with
  | nil => rfl
  | cons info rest ih =>
    have h0 := h info (List.mem_cons_self _ _)
    have hcond : ¬(info.id_len ≠ 0 ∧ id_matches info dev_id) := by
      rcases h0 with h0 | h0
      · intro hc
        exact hc.1 h0
      · intro hc
        exact h0 hc.2
    have hstep : dataflash_probe_atmel (info :: rest) dev_id ia d =
        dataflash_probe_atmel rest dev_id ia d := by
      simp only [dataflash_probe_atmel]
      rw [if_neg hcond]
    rw [hstep]
    exact ih (fun i hi => h i (List.mem_cons_of_mem _ hi))

/-- C1: for every descriptor with `is_power_2 = 0` with page size P and page
offset S, and every logical offset o in `[0, pages * P)`, the device address
produced by the read path equals `(q <<< S) ||| r` where `o = q * P + r`
with `0 ≤ r < P`: the code's `+` composition (line 124) coincides with `|||`
because `r < P ≤ 2 ^ S` for every supported geometry — and every geometry
`df_at45_desc_init` can produce satisfies that bound (second conjunct). -/
theorem C1_nonpow2_address :
    (∀ (d : dataflash_descriptor) (o : Nat),
      d.is_power_2 = 0 → 0 < d.page_size →
      d.page_size ≤ 2 ^ d.page_offset →
      d.pages <<< d.page_offset ≤ 2 ^ 32 →
      o < d.pages * d.page_size →
      dataflash_address d o =
        ((o / d.page_size) <<< d.page_offset) ||| (o % d.page_size)) ∧
    (∀ (status : Nat) (d d' : dataflash_descriptor),
      df_at45_desc_init status d = (0, d') →
      0 < d'.page_size ∧ d'.page_size ≤ 2 ^ d'.page_offset ∧
        d'.pages <<< d'.page_offset ≤ 2 ^ 32) := by
  constructor
  · intro d o hp2 hP hPS hbound horange
    unfold dataflash_address
    rw [if_pos hp2]
    have hr2 : o % d.page_size < 2 ^ d.page_offset :=
      lt_of_lt_of_le (Nat.mod_lt o hP) hPS
    have hq : o / d.page_size < d.pages := by
      rw [Nat.div_lt_iff_lt_mul hP]
      exact horange
    have hlt : (o / d.page_size) <<< d.page_offset + o % d.page_size < 2 ^ 32 := by
      have h1 : (o / d.page_size) <<< d.page_offset + o % d.page_size
          < d.pages <<< d.page_offset := by
        rw [Nat.shiftLeft_eq, Nat.shiftLeft_eq]
        calc o / d.page_size * 2 ^ d.page_offset + o % d.page_size
            < (o / d.page_size + 1) * 2 ^ d.page_offset := by
              rw [Nat.add_mul, Nat.one_mul]
              exact Nat.add_lt_add_left hr2 _
          _ ≤ d.pages * 2 ^ d.page_offset :=
              Nat.mul_le_mul_right _ (Nat.succ_le_of_lt hq)
      exact lt_of_lt_of_le h1 hbound
    rw [Nat.mod_eq_of_lt hlt]
    exact shiftLeft_add_eq_lor _ _ _ hr2
  · intro status d d' h
    simp only [df_at45_desc_init] at h
    repeat' split at h
    all_goals injection h with h1 h2
    all_goals first
      | exact absurd h1 (by decide)
      | (subst h2
         exact ⟨by norm_num, by norm_num, by norm_num [Nat.shiftLeft_eq]⟩)

/-- C1 witness: the AT45DB011D geometry (512 pages of 264 bytes, offset 9)
at logical offset 270. -/
theorem C1_witness :
    dataflash_address
        (⟨DF_FAMILY_AT45, 512, 264, 9, 0, 0⟩ : dataflash_descriptor) 270 =
      ((270 / 264) <<< 9) ||| (270 % 264) :=
  C1_nonpow2_address.1 _ 270 rfl (by decide) (by decide) (by decide) (by decide)

/-- C7: the AT25 erase-poll loop with its 1000-iteration bound returns
success exactly when some status read within the bound shows the ready bit
(bit 0) low, and -1 (erase timeout) exactly when all 1000 reads show it
high; the AT45 loop returns success exactly when some read within the bound
shows bit 7 high, and -1 exactly when all 1000 reads show it low. -/
theorem C7_erase_poll_semantics (st25 st45 : Nat → Nat) (i0 : Nat) :
    (at25_poll st25 i0 1000 = 0 ↔
      ∃ k < 1000, st25 (i0 + k) &&& STATUS_READY_AT25 = 0) ∧
    (at25_poll st25 i0 1000 = -1 ↔
      ∀ k < 1000, st25 (i0 + k) &&& STATUS_READY_AT25 ≠ 0) ∧
    (at45_poll st45 i0 1000 = 0 ↔
      ∃ k < 1000, st45 (i0 + k) &&& STATUS_READY_AT45 ≠ 0) ∧
    (at45_poll st45 i0 1000 = -1 ↔
      ∀ k < 1000, st45 (i0 + k) &&& STATUS_READY_AT45 = 0) := by
  have h25 : at25_poll st25 i0 1000 = 0 ↔
      ∃ k < 1000, st25 (i0 + k) &&& STATUS_READY_AT25 = 0 := by
    rw [show (1000 : Nat) = 999 + 1 by norm_num, at25_poll_zero_iff st25 999 i0]
    exact exists_congr fun k => by
      constructor
      · rintro ⟨h1, h2⟩
        exact ⟨by omega, h2⟩
      · rintro ⟨h1, h2⟩
        exact ⟨by omega, h2⟩
  have h45 : at45_poll st45 i0 1000 = 0 ↔
      ∃ k < 1000, st45 (i0 + k) &&& STATUS_READY_AT45 ≠ 0 := by
    rw [show (1000 : Nat) = 999 + 1 by norm_num, at45_poll_zero_iff st45 999 i0]
    exact exists_congr fun k => by
      constructor
      · rintro ⟨h1, h2⟩
        exact ⟨by omega, h2⟩
      · rintro ⟨h1, h2⟩
        exact ⟨by omega, h2⟩
  have h25n : at25_poll st25 i0 1000 = -1 ↔ ¬ at25_poll st25 i0 1000 = 0 := by
    rcases at25_poll_zero_or_neg_one st25 1000 i0 with h | h <;> simp [h]
  have h45n : at45_poll st45 i0 1000 = -1 ↔ ¬ at45_poll st45 i0 1000 = 0 := by
    rcases at45_poll_zero_or_neg_one st45 1000 i0 with h | h <;> simp [h]
  refine ⟨h25, ?_, h45, ?_⟩
  · rw [h25n, h25]
    push_neg
    rfl
  · rw [h45n, h45]
    push_neg
    rfl

/-- C2: evaluation at the failing input.  Probing the ID bytes
`[0xef, 0x70, 0x18, 0x00, 0x00]` does match the `w25q128jv` table entry and
copies `pages = 256` and `page_size = 256`, but the table-match path never
writes `is_spinor`, which therefore keeps its zeroed value — contradicting
the claimed `is_spinor = 1` (the dead helper `w_25q128_desc_init` that would
set it is unreachable from the probe). -/
theorem C2_table_match_is_spinor_bug :
    (dataflash_probe_atmel spi_nor_ids_winbond [0xef, 0x70, 0x18, 0x00, 0x00]
        (fun _ => 0) zeroed_descriptor).1 = 0 ∧
    ((dataflash_probe_atmel spi_nor_ids_winbond [0xef, 0x70, 0x18, 0x00, 0x00]
        (fun _ => 0) zeroed_descriptor).2).pages = 256 ∧
    ((dataflash_probe_atmel spi_nor_ids_winbond [0xef, 0x70, 0x18, 0x00, 0x00]
        (fun _ => 0) zeroed_descriptor).2).page_size = 256 ∧
    ((dataflash_probe_atmel spi_nor_ids_winbond [0xef, 0x70, 0x18, 0x00, 0x00]
        (fun _ => 0) zeroed_descriptor).2).is_spinor = 0 :=
  ⟨by decide, by decide, by decide, by decide⟩

/-- C3 counterexample: the AT45 status byte 0x14 (density bits 0x14,
page-size bit clear) does not resolve to 512 pages — density 0x14 is the
AT45DB021D row. -/
theorem C3_counterexample :
    ((df_at45_desc_init 0x14 zeroed_descriptor).2).pages ≠ 512 := by
  decide

/-- C3 amended: a status byte with density bits 0x14 and the page-size bit
clear resolves to `pages = 1024` (not 512), `page_size = 264`,
`page_offset = 9`, `is_power_2 = 0`; translating logical offset 270 through
that descriptor gives page index 1, byte-in-page 6 and device address
`(1 <<< 9) ||| 6 = 518`. -/
theorem C3_density14_amended :
    df_at45_desc_init 0x14 zeroed_descriptor =
      (0, (⟨0, 1024, 264, 9, 0, 0⟩ : dataflash_descriptor)) ∧
    (270 : Nat) / 264 = 1 ∧ (270 : Nat) % 264 = 6 ∧
    dataflash_address (⟨0, 1024, 264, 9, 0, 0⟩ : dataflash_descriptor) 270 = 518 ∧
    ((1 <<< 9 : Nat) ||| 6) = 518 :=
  ⟨by decide, by decide, by decide, by decide, by decide⟩

/-- C4 counterexample: the ID bytes `[0x1f, 0x26, 0, 0, 0]` (Atmel vendor,
family bits `0x26 &&& 0xe0 = 0x20` = AT45) match no table entry, and the
probe returns 1 with the descriptor untouched — no legacy family dispatch
and no status-register decode happens, where the claim requires the AT45
part to be resolved by a status read. -/
theorem C4_counterexample :
    dataflash_probe_atmel spi_nor_ids_winbond [0x1f, 0x26, 0x00, 0x00, 0x00]
      (fun _ => 0) zeroed_descriptor = (1, zeroed_descriptor) := by
  decide

/-- C4 amended: for every device ID that matches no entry of the static
part table, the probe fails (returns 1) leaving the descriptor untouched —
the legacy family dispatch is disabled (commented out) in the probe.  The
dispatch routine `df_desc_init` itself, were it invoked, behaves as the
claim describes: Atmel AT45 parts go through the status-register density
decode, Atmel AT26F/AT26DF parts get the fixed power-of-2 geometry of 16384
pages of 256 bytes independent of any status byte, and Micron family codes
M25P/N25Q get the fixed NOR geometry. -/
theorem C4_no_fallback_amended :
    (∀ (table : List flash_info) (dev_id : List Nat) (ia : flash_info → Nat)
        (d : dataflash_descriptor),
      (∀ info ∈ table, info.id_len = 0 ∨ ¬ id_matches info dev_id) →
      dataflash_probe_atmel table dev_id ia d = (1, d)) ∧
    (∀ (st45 : Nat) (d : dataflash_descriptor),
      df_desc_init st45 MANUFACTURER_ID_ATMEL DF_FAMILY_AT45 d =
        df_at45_desc_init st45 { d with family := DF_FAMILY_AT45 }) ∧
    (∀ (st45 : Nat) (d : dataflash_descriptor),
      df_desc_init st45 MANUFACTURER_ID_ATMEL DF_FAMILY_AT26F d =
        (0, { d with family := DF_FAMILY_AT26F, is_power_2 := 1, pages := 16384,
                     page_size := 256, page_offset := 0 })) ∧
    (∀ (st45 : Nat) (d : dataflash_descriptor),
      df_desc_init st45 MANUFACTURER_ID_ATMEL DF_FAMILY_AT26DF d =
        (0, { d with family := DF_FAMILY_AT26DF, is_power_2 := 1, pages := 16384,
                     page_size := 256, page_offset := 0 })) ∧
    (∀ (st45 : Nat) (d : dataflash_descriptor),
      df_desc_init st45 MANUFACTURER_ID_MICRON DF_FAMILY_M25P d =
        (0, { d with family := DF_FAMILY_M25P, pages := 16384, page_size := 256,
                     page_offset := 0, is_spinor := 1 })) ∧
    (∀ (st45 : Nat) (d : dataflash_descriptor),
      df_desc_init st45 MANUFACTURER_ID_MICRON DF_FAMILY_N25Q d =
        (0, { d with family := DF_FAMILY_N25Q, pages := 16384, page_size := 256,
                     page_offset := 0, is_spinor := 1 })) := by
  refine ⟨?_, ?_, ?_, ?_, ?_, ?_⟩
  · intro table dev_id ia d h
    exact dataflash_probe_atmel_no_match table dev_id ia d h
  · intro st45 d
    rfl
  · intro st45 d
    rfl
  · intro st45 d
    rfl
  · intro st45 d
    rfl
  · intro st45 d
    rfl

/-- C4 witness: a concrete Atmel AT45-family ID against the compiled table. -/
theorem C4_witness :
    dataflash_probe_atmel spi_nor_ids_winbond [0x1f, 0x22, 0x00, 0x00, 0x00]
      (fun _ => 0) zeroed_descriptor = (1, zeroed_descriptor) :=
  C4_no_fallback_amended.1 spi_nor_ids_winbond [0x1f, 0x22, 0x00, 0x00, 0x00]
    (fun _ => 0) zeroed_descriptor (by decide)

/-- C5 counterexample: a spinor descriptor with `pages = 16385 > 16384` read
at offset 0x01000000 does not produce the claimed opcode-plus-4-byte-MSB
command — `spinor_read_array` ignores the page count and always emits a
3-byte address. -/
theorem C5_counterexample :
    read_array_cmd (⟨0, 16385, 256, 0, 0, 1⟩ : dataflash_descriptor)
        0x01000000 0 ≠
      [CMD_READ_ARRAY_FAST, 0x01000000 >>> 24 % 256, 0x01000000 >>> 16 % 256,
       0x01000000 >>> 8 % 256, 0x01000000 % 256] := by
  decide

/-- C5 amended: every read command is 5 bytes, but the page-count selection
of the address width applies only on the dataflash (non-spinor) path:
there, `pages ≤ 16384` gives the fast-read opcode, a 3-byte MSB-first
address and one zero dummy byte, and `pages > 16384` gives the opcode and a
4-byte MSB-first address with no dummy byte; the spinor path always emits
the opcode, a 3-byte MSB-first address and an uninitialized fifth byte,
regardless of the page count. -/
theorem C5_cmd_layout_amended :
    (∀ (d : dataflash_descriptor) (o : Nat), d.pages ≤ 16384 →
      dataflash_read_array_cmd d o =
        [CMD_READ_ARRAY_FAST, dataflash_address d o >>> 16 % 256,
         dataflash_address d o >>> 8 % 256, dataflash_address d o % 256, 0]) ∧
    (∀ (d : dataflash_descriptor) (o : Nat), 16384 < d.pages →
      dataflash_read_array_cmd d o =
        [CMD_READ_ARRAY_FAST, dataflash_address d o >>> 24 % 256,
         dataflash_address d o >>> 16 % 256, dataflash_address d o >>> 8 % 256,
         dataflash_address d o % 256]) ∧
    (∀ (o junk : Nat), spinor_read_array_cmd o junk =
        [CMD_READ_ARRAY_FAST, o >>> 16 % 256, o >>> 8 % 256, o % 256, junk]) ∧
    (∀ (d : dataflash_descriptor) (o junk : Nat),
      (read_array_cmd d o junk).length = 5) := by
  refine ⟨?_, ?_, ?_, ?_⟩
  · intro d o h
    unfold dataflash_read_array_cmd
    rw [if_neg (Nat.not_lt.mpr h)]
  · intro d o h
    unfold dataflash_read_array_cmd
    rw [if_pos h]
  · intro o junk
    rfl
  · intro d o junk
    by_cases h : d.is_spinor = 0
    · unfold read_array_cmd
      rw [if_pos h]
      by_cases h2 : 16384 < d.pages
      · unfold dataflash_read_array_cmd
        rw [if_pos h2]
        rfl
      · unfold dataflash_read_array_cmd
        rw [if_neg h2]
        rfl
    · unfold read_array_cmd
      rw [if_neg h]
      rfl

/-- C5 witness: the 3-byte layout on the AT45DB011D geometry at offset 270
(device address 518). -/
theorem C5_witness :
    dataflash_read_array_cmd
        (⟨DF_FAMILY_AT45, 512, 264, 9, 0, 0⟩ : dataflash_descriptor) 270 =
      [CMD_READ_ARRAY_FAST,
       dataflash_address (⟨DF_FAMILY_AT45, 512, 264, 9, 0, 0⟩ :
          dataflash_descriptor) 270 >>> 16 % 256,
       dataflash_address (⟨DF_FAMILY_AT45, 512, 264, 9, 0, 0⟩ :
          dataflash_descriptor) 270 >>> 8 % 256,
       dataflash_address (⟨DF_FAMILY_AT45, 512, 264, 9, 0, 0⟩ :
          dataflash_descriptor) 270 % 256, 0] :=
  C5_cmd_layout_amended.1 _ 270 (by decide)

/-- C6: the AT45 densities the source comments out (1282D = 0x10,
2562D = 0x18, 5122D = 0x20) fall to the failing default of the density
switch, and `df_desc_init` returns -1 for every unknown vendor byte as well
as for every unrecognized family code under each recognized vendor — the
probe error is signalled by the nonzero return code, never by a default
geometry. -/
theorem C6_unsupported_density_vendor_fail :
    (∀ (status : Nat) (d : dataflash_descriptor),
      status &&& 0x3c = DENSITY_AT45DB1282D ∨
        status &&& 0x3c = DENSITY_AT45DB2562D ∨
        status &&& 0x3c = DENSITY_AT45DB5122D →
      (df_at45_desc_init status d).1 = -1) ∧
    (∀ (st45 vendor family : Nat) (d : dataflash_descriptor),
      vendor ≠ MANUFACTURER_ID_ATMEL → vendor ≠ MANUFACTURER_ID_MICRON →
      vendor ≠ MANUFACTURER_ID_WINBOND →
      (df_desc_init st45 vendor family d).1 = -1) ∧
    (∀ (st45 family : Nat) (d : dataflash_descriptor),
      family ≠ DF_FAMILY_AT26F → family ≠ DF_FAMILY_AT45 →
      family ≠ DF_FAMILY_AT26DF →
      (df_desc_init st45 MANUFACTURER_ID_ATMEL family d).1 = -1) ∧
    (∀ (st45 family : Nat) (d : dataflash_descriptor),
      family ≠ DF_FAMILY_M25P → family ≠ DF_FAMILY_N25Q →
      (df_desc_init st45 MANUFACTURER_ID_MICRON family d).1 = -1) ∧
    (∀ (st45 family : Nat) (d : dataflash_descriptor),
      family ≠ WINBOND_W25Q128JV →
      (df_desc_init st45 MANUFACTURER_ID_WINBOND family d).1 = -1) := by
  refine ⟨?_, ?_, ?_, ?_, ?_⟩
  · intro status d h
    rcases h with h | h | h <;>
      simp [df_at45_desc_init, h, DENSITY_AT45DB011D, DENSITY_AT45DB021D,
        DENSITY_AT45DB041D, DENSITY_AT45DB081D, DENSITY_AT45DB161D,
        DENSITY_AT45DB321D, DENSITY_AT45DB642D, DENSITY_AT45DB1282D,
        DENSITY_AT45DB2562D, DENSITY_AT45DB5122D]
  · intro st45 vendor family d h1 h2 h3
    simp [df_desc_init, h1, h2, h3, MANUFACTURER_ID_ATMEL,
      MANUFACTURER_ID_MICRON, MANUFACTURER_ID_WINBOND] at h1 h2 h3 ⊢
    simp [h1, h2, h3]
  · intro st45 family d h1 h2 h3
    simp [df_desc_init, MANUFACTURER_ID_ATMEL, MANUFACTURER_ID_MICRON,
      MANUFACTURER_ID_WINBOND, DF_FAMILY_AT26F, DF_FAMILY_AT45,
      DF_FAMILY_AT26DF] at h1 h2 h3 ⊢
    simp [h1, h2, h3]
  · intro st45 family d h1 h2
    simp [df_desc_init, MANUFACTURER_ID_ATMEL, MANUFACTURER_ID_MICRON,
      MANUFACTURER_ID_WINBOND, DF_FAMILY_M25P, DF_FAMILY_N25Q] at h1 h2 ⊢
    simp [h1, h2]
  · intro st45 family d h1
    simp [df_desc_init, MANUFACTURER_ID_ATMEL, MANUFACTURER_ID_MICRON,
      MANUFACTURER_ID_WINBOND, WINBOND_W25Q128JV] at h1 ⊢
    simp [h1]

/-- C6 witness: density 0x10 (AT45DB1282D), vendor 0x55, and unrecognized
family codes under each recognized vendor. -/
theorem C6_witness :
    (df_at45_desc_init 0x10 zeroed_descriptor).1 = -1 ∧
    (df_desc_init 0 0x55 0 zeroed_descriptor).1 = -1 ∧
    (df_desc_init 0 MANUFACTURER_ID_ATMEL 0x60 zeroed_descriptor).1 = -1 ∧
    (df_desc_init 0 MANUFACTURER_ID_MICRON 0x60 zeroed_descriptor).1 = -1 ∧
    (df_desc_init 0 MANUFACTURER_ID_WINBOND 0x60 zeroed_descriptor).1 = -1 :=
  ⟨C6_unsupported_density_vendor_fail.1 0x10 zeroed_descriptor (Or.inl (by decide)),
   C6_unsupported_density_vendor_fail.2.1 0 0x55 0 zeroed_descriptor
     (by decide) (by decide) (by decide),
   C6_unsupported_density_vendor_fail.2.2.1 0 0x60 zeroed_descriptor
     (by decide) (by decide) (by decide),
   C6_unsupported_density_vendor_fail.2.2.2.1 0 0x60 zeroed_descriptor
     (by decide) (by decide),
   C6_unsupported_density_vendor_fail.2.2.2.2 0 0x60 zeroed_descriptor
     (by decide)⟩

/-- C8 counterexample: in `recovery_fail_env` the button is pressed and the
recovery erase fails (the unprotect sequence leaves the protection bits
set, so `dataflash_recovery` returns -1), yet the load call does not abort:
it returns 0 and performs both the kernel and the device-tree copy. -/
theorem C8_counterexample :
    recovery_fail_env.button_pressed = true ∧
    (dataflash_recovery recovery_fail_env.button_pressed recovery_fail_env.st25
        recovery_fail_env.st45
        (dataflash_probe_atmel spi_nor_ids_winbond recovery_fail_env.dev_id
          recovery_fail_env.info_addr zeroed_descriptor).2).1 = -1 ∧
    spi_flash_loadimage spi_nor_ids_winbond recovery_fail_env =
      (0, ⟨true, true⟩) :=
  ⟨rfl, by decide, by decide⟩

/-- C8 amended: when the recovery engine runs (button pressed) after a
successful probe, a recovery erase that succeeds aborts the whole load with
-2 and no copy is performed (recovery replaces loading); a recovery erase
that fails — by poll timeout, protection bits left set, or any other
nonzero result — does not abort the load: provided the kernel length
resolves, the kernel copy is still performed and the call does not return
the recovery abort code. -/
theorem C8_recovery_outcome_amended (table : List flash_info) (env : SpiEnv)
    (_hbtn : env.button_pressed = true)
    (hprobe : (dataflash_probe_atmel table env.dev_id env.info_addr
        zeroed_descriptor).1 = 0) :
    ((dataflash_recovery env.button_pressed env.st25 env.st45
        (dataflash_probe_atmel table env.dev_id env.info_addr
          zeroed_descriptor).2).1 = 0 →
      spi_flash_loadimage table env = (-2, ⟨false, false⟩)) ∧
    ((dataflash_recovery env.button_pressed env.st25 env.st45
        (dataflash_probe_atmel table env.dev_id env.info_addr
          zeroed_descriptor).2).1 ≠ 0 →
      env.kernel_size_result ≠ -1 →
      (spi_flash_loadimage table env).2.kernel_copied = true ∧
      (spi_flash_loadimage table env).1 ≠ -2) := by
  constructor
  · intro hrec
    simp [spi_flash_loadimage, hprobe, hrec]
  · intro hrec hku
    have hk : update_image_length env image_flag.kernel_image =
        env.kernel_size_result := rfl
    have hcore : spi_flash_loadimage table env =
        (if update_image_length env image_flag.dt_blob = -1 then
          ((-1 : Int), (⟨true, false⟩ : LoadTrace))
        else (0, ⟨true, true⟩)) := by
      simp [spi_flash_loadimage, hprobe, hrec, hk, hku]
    rw [hcore]
    by_cases hdt : update_image_length env image_flag.dt_blob = -1
    · rw [if_pos hdt]
      exact ⟨rfl, by decide⟩
    · rw [if_neg hdt]
      exact ⟨rfl, by decide⟩

/-- C8 witness: the two concrete environments — a clean erase aborts the
load with -2 and no copies; a failed unprotect leaves the load running and
the kernel copy happens. -/
theorem C8_witness :
    spi_flash_loadimage spi_nor_ids_winbond recovery_succ_env =
      (-2, ⟨false, false⟩) ∧
    (spi_flash_loadimage spi_nor_ids_winbond
        recovery_fail_env).2.kernel_copied = true :=
  ⟨(C8_recovery_outcome_amended spi_nor_ids_winbond recovery_succ_env rfl
      (by decide)).1 (by decide),
   ((C8_recovery_outcome_amended spi_nor_ids_winbond recovery_fail_env rfl
      (by decide)).2 (by decide) (by decide)).1⟩

/-- C9: a kernel payload whose header parser fails makes the length
resolver return -1 (never zero), and the whole load call then returns -1
with neither the kernel nor the device-tree copy performed; a device-tree
blob whose validation fails likewise makes the resolver return -1.  The
parsers themselves live outside this translation unit and are modelled from
the spec's parser interface. -/
theorem C9_length_failure (table : List flash_info) (env : SpiEnv)
    (hprobe : (dataflash_probe_atmel table env.dev_id env.info_addr
        zeroed_descriptor).1 = 0)
    (hrec : (dataflash_recovery env.button_pressed env.st25 env.st45
        (dataflash_probe_atmel table env.dev_id env.info_addr
          zeroed_descriptor).2).1 ≠ 0) :
    (env.kernel_size_result = -1 →
      update_image_length env image_flag.kernel_image = -1 ∧
      spi_flash_loadimage table env = (-1, ⟨false, false⟩)) ∧
    (env.dt_blob_valid = false →
      update_image_length env image_flag.dt_blob = -1) := by
  constructor
  · intro hk
    constructor
    · simp [update_image_length, hk]
    · have hk2 : update_image_length env image_flag.kernel_image = -1 := by
        simp [update_image_length, hk]
      simp [spi_flash_loadimage, hprobe, hrec, hk2]
  · intro hdt
    simp [update_image_length, hdt]

/-- C9 witness: `kernel_reject_env` — probe succeeds, the button is not
pressed, and the kernel parser reports failure. -/
theorem C9_witness :
    update_image_length kernel_reject_env image_flag.kernel_image = -1 ∧
    spi_flash_loadimage spi_nor_ids_winbond kernel_reject_env =
      (-1, ⟨false, false⟩) :=
  (C9_length_failure spi_nor_ids_winbond kernel_reject_env (by decide)
    (by decide)).1 (by decide)

/-- C10: every descriptor produced by a successful static-table match keeps
the zeroed `family` field, which equals `DF_FAMILY_AT26F` (0x00), so the
recovery engine on such a descriptor always dispatches to the AT25 erase
path and never to the AT45 page-erase path, whichever part the table
matched. -/
theorem C10_table_match_at25_path (table : List flash_info) (dev_id : List Nat)
    (ia : flash_info → Nat) (d' : dataflash_descriptor)
    (h : dataflash_probe_atmel table dev_id ia zeroed_descriptor = (0, d')) :
    d'.family = DF_FAMILY_AT26F ∧
    ∀ (bp : Bool) (st25 st45 : Nat → Nat),
      (dataflash_recovery bp st25 st45 d').2 ≠ ErasePath.at45 ∧
      (bp = true → (dataflash_recovery bp st25 st45 d').2 = ErasePath.at25) := by
  have hfam : d'.family = 0 := by
    have hpres := dataflash_probe_atmel_family table dev_id ia zeroed_descriptor
    rw [h] at hpres
    simpa [zeroed_descriptor] using hpres
  refine ⟨hfam, ?_⟩
  intro bp st25 st45
  cases bp with
  | false =>
    have hrec : dataflash_recovery false st25 st45 d' = (-1, ErasePath.idle) := by
      simp [dataflash_recovery]
    rw [hrec]
    exact ⟨by decide, fun hbp => absurd hbp (by decide)⟩
  | true =>
    have hrec : dataflash_recovery true st25 st45 d' =
        (dataflash_page0_erase_at25 st25, ErasePath.at25) := by
      simp [dataflash_recovery, hfam, DF_FAMILY_AT26F]
    rw [hrec]
    exact ⟨fun hcontra => ErasePath.noConfusion hcontra, fun _ => rfl⟩

/-- C10 witness: the `w25q128jv` table match feeds the AT25 erase path. -/
theorem C10_witness :
    (⟨0, 256, 256, 0, 0, 0⟩ : dataflash_descriptor).family = DF_FAMILY_AT26F ∧
    (dataflash_recovery true (fun _ => 0x0c) (fun _ => 0)
        (⟨0, 256, 256, 0, 0, 0⟩ : dataflash_descriptor)).2 = ErasePath.at25 :=
  ⟨(C10_table_match_at25_path spi_nor_ids_winbond [0xef, 0x70, 0x18, 0x00, 0x00]
      (fun _ => 0) _ (by decide)).1,
   ((C10_table_match_at25_path spi_nor_ids_winbond [0xef, 0x70, 0x18, 0x00, 0x00]
      (fun _ => 0) _ (by decide)).2 true (fun _ => 0x0c) (fun _ => 0)).2 rfl⟩

end SpiFlash
